import Mathlib

/-
Verification of the token-based pagination and sync-state engine of
tap-sherpa against its specification.

The development shallowly embeds the relevant Python source:
  * tap_sherpa/pagination.py : PaginatedStream (the engine wired into the tap)
  * tap_sherpa/streams.py    : TokenBasedStream (a second token loop)
  * tap_sherpa/tap.py        : ChangedItemsStream.get_records, TapSherpa config
  * tap_sherpa/client.py     : SherpaClient.get_changed_items

Python dictionaries, lists, strings and integers are modelled by the
inductive `Value`.  Machine-level behaviour that no claim touches
(`int(...)` raising on a non-numeric string, `.get` raising on a
non-dict) is modelled by total functions returning the Python default;
each such spot is marked in a comment at the definition.
-/

namespace TapSherpa

/-- A Python value as it appears in the deserialized SOAP responses:
None, int, str, list or dict (modelled as an association list in
insertion order; lookups take the first matching key). -/
inductive Value : Type where
  | vnull : Value
  | vint : Int → Value
  | vstr : String → Value
  | vlist : List Value → Value
  | vobj : List (String × Value) → Value

/-- First-match lookup in an association list (Python dict access for the
dicts built in this model, which carry no duplicate keys). -/
def lookupStr {α : Type} : List (String × α) → String → Option α
  | [], _ => none
  | (k, v) :: rest, key => if k = key then some v else lookupStr rest key

/-- Python `d.get(key, default)`.  On a non-dict value Python would raise
`AttributeError`; no claim exercises that path, so the model returns the
default there. -/
def pyGet (v : Value) (key : String) (default : Value) : Value :=
  match v with
  | .vobj fs => (lookupStr fs key).getD default
  | _ => default

/-- Python truthiness test (`not x` is `pyFalsy x`). -/
def pyFalsy : Value → Bool
  | .vnull => true
  | .vint n => n = 0
  | .vstr s => s = ""
  | .vlist xs => xs.isEmpty
  | .vobj fs => fs.isEmpty

/-- Python `key in d`.  On a non-dict Python `in` would raise for the
values reachable here (None is caught by the falsiness guard first);
modelled as `false`. -/
def hasKey (v : Value) (key : String) : Bool :=
  match v with
  | .vobj fs => (lookupStr fs key).isSome
  | _ => false

/-- Python `int(x)` for the values the engine feeds it: an int is kept, a
numeric string is parsed.  `int` of None or of a non-numeric string would
raise in Python; no claim exercises that, so the model returns 0 there. -/
def pyToInt : Value → Int
  | .vint n => n
  | .vstr s => (s.toInt?).getD 0
  | _ => 0

/-- pagination.py line 310 / streams.py line 135:
`int(item.get("Token", 0))`. -/
def itemToken (item : Value) : Int :=
  pyToInt (pyGet item "Token" (.vint 0))

/-- How a run of a pagination loop ended in the model.  `outOfPages`
means the (finite) transport prefix supplied to the model ran out while
the loop would have kept fetching. -/
inductive ExitReason : Type where
  | emptyItems : ExitReason
  | noValidTokens : ExitReason
  | stagnantToken : ExitReason
  | outOfPages : ExitReason
  deriving DecidableEq, Repr

namespace PaginatedStream

/-- pagination.py lines 290-296: descend the dot-separated response path;
at each step `items = items.get(part, {})` when `items` is a dict,
otherwise `items = {}`. -/
def descendPath : Value → List String → Value
  | v, [] => v
  | v, p :: ps =>
      match v with
      | .vobj _ => descendPath (pyGet v p (.vobj [])) ps
      | _ => descendPath (.vobj []) ps

/-- Python `x == {}`: true exactly for the empty dict. -/
def isEmptyObj : Value → Bool
  | .vobj [] => true
  | _ => false

/-- pagination.py line 298: `if not items or items == {}`. -/
def emptyBranch (v : Value) : Bool :=
  pyFalsy v || isEmptyObj v

/-- pagination.py lines 303-304: `if not isinstance(items, list): items = []`. -/
def asList : Value → List Value
  | .vlist xs => xs
  | _ => []

/-- pagination.py lines 73-160, `PaginatedStream.map_record`: branch on
the stream name; each known stream builds its record dict via
`item.get(...)` (default None); unknown names return None.  The
`schema_props` / `field_names` locals of lines 83-84 are computed but
never used by the source, so they are not modelled. -/
def map_record (name : String) (item : Value) : Option (List (String × Value)) :=
  if name = "changed_items" then
    some [("item_code", pyGet item "ItemCode" .vnull),
          ("token", pyGet item "Token" .vnull),
          ("item_status", pyGet item "ItemStatus" .vnull)]
  else if name = "changed_orders" then
    some [("order_number", pyGet item "OrderNumber" .vnull),
          ("token", pyGet item "Token" .vnull),
          ("order_status", pyGet item "OrderStatus" .vnull),
          ("warehouse_code", pyGet item "WarehouseCode" .vnull)]
  else if name = "changed_suppliers" then
    some [("supplier_code", pyGet item "ClientCode" .vnull),
          ("token", pyGet item "Token" .vnull),
          ("supplier_status", .vstr "Active")]
  else if name = "changed_item_suppliers" then
    some [("supplier_code", pyGet item "SupplierCode" .vnull),
          ("supplier_item_code", pyGet item "SupplierItemCode" .vnull),
          ("item_code", pyGet item "ItemCode" .vnull),
          ("supplier_description", pyGet item "SupplierDescription" .vnull),
          ("supplier_stock", pyGet item "SupplierStock" .vnull),
          ("supplier_price", pyGet item "SupplierPrice" .vnull),
          ("preferred", pyGet item "Preferred" .vnull),
          ("token", pyGet item "Token" .vnull),
          ("available_from", pyGet item "AvailableFrom" .vnull),
          ("supplier_item_status", pyGet item "SupplierItemStatus" .vnull),
          ("last_modified", pyGet item "LastModified" .vnull),
          ("min_purchase_qty", pyGet item "MinPurchaseQty" .vnull),
          ("supplier_purchase_qty", pyGet item "SupplierPurchaseQty" .vnull),
          ("supplier_purchase_qty_multiplier", pyGet item "SupplierPurchaseQtyMultiplier" .vnull)]
  else if name = "changed_purchases" then
    some [("purchase_code", pyGet item "PurchaseCode" .vnull),
          ("order_number", pyGet item "OrderNumber" .vnull),
          ("token", pyGet item "Token" .vnull),
          ("purchase_status", pyGet item "PurchaseStatus" .vnull),
          ("warehouse_code", pyGet item "WarehouseCode" .vnull)]
  else if name = "changed_parcels" then
    some [("parcel_code", pyGet item "ParcelCode" .vnull),
          ("token", pyGet item "Token" .vnull),
          ("barcode", pyGet item "Barcode" .vnull),
          ("order_number", pyGet item "OrderNumber" .vnull),
          ("parcel_service_code", pyGet item "ParcelServiceCode" .vnull),
          ("parcel_type_code", pyGet item "ParcelTypeCode" .vnull),
          ("track_trace_url", pyGet item "TrackTraceUrl" .vnull)]
  else if name = "changed_stock" then
    some [("item_code", pyGet item "ItemCode" .vnull),
          ("available", pyGet item "Available" .vnull),
          ("stock", pyGet item "Stock" .vnull),
          ("reserved", pyGet item "Reserved" .vnull),
          ("item_status", pyGet item "ItemStatus" .vnull),
          ("token", pyGet item "Token" .vnull),
          ("expected_date", pyGet item "ExpectedDate" .vnull),
          ("qty_waiting_to_receive", pyGet item "QtyWaitingToReceive" .vnull),
          ("first_expected_date", pyGet item "FirstExpectedDate" .vnull),
          ("first_expected_qty_waiting_to_receive", pyGet item "FirstExpectedQtyWaitingToReceive" .vnull),
          ("last_modified", pyGet item "LastModified" .vnull),
          ("avg_purchase_price", pyGet item "AvgPurchasePrice" .vnull),
          ("warehouse_code", pyGet item "WarehouseCode" .vnull),
          ("cost_price", pyGet item "CostPrice" .vnull)]
  else
    none

/-- pagination.py lines 306-318: one pass over the page's items, seeding
`highest_token` at the request cursor, raising it on every item token
(mapped or not), and emitting each truthy mapped record with
`response_time` attached, in response order.  `map_record` returns
either None or a non-empty dict, so Python's `if record:` is exactly the
`Option` match. -/
def processItems (name : String) (response_time : Value) :
    List Value → Int → Int × List (List (String × Value))
  | [], highest => (highest, [])
  | item :: rest, highest =>
      let ht := itemToken item
      let h1 := if ht > highest then ht else highest
      let r := processItems name response_time rest h1
      match map_record name item with
      | some rec => (r.1, (rec ++ [("response_time", response_time)]) :: r.2)
      | none => r

/-- Observable outcome of a run of `PaginatedStream.get_records_with_token`:
the emitted records, the successive cursor values handed to
`_increment_stream_state` (as integers; the source round-trips them
through `str`/`int`, an identity on this model), the number of
`_write_state_message` calls, the number of `_make_request` calls, the
number of `self._total_records` increments (the source bumps it once per
`_increment_stream_state` call and reports it as
`total_records_processed`), the final value of `last_token`, and how the
loop stopped. -/
structure RunResult : Type where
  emitted : List (List (String × Value))
  persisted : List Int
  stateWrites : Nat
  fetches : Nat
  totalRecords : Nat
  finalCursor : Int
  exit : ExitReason

/-- pagination.py lines 284-330, `PaginatedStream.get_records_with_token`:
the token pagination loop.  The transport is modelled as the finite list
of responses successive `_make_request` calls return; exhausting it ends
the model run with `outOfPages`. -/
def get_records_with_token (name : String) (response_path : List String) :
    List Value → Int → RunResult
  | [], tok => ⟨[], [], 0, 0, 0, tok, .outOfPages⟩
  | resp :: rest, tok =>
      let response_time := pyGet resp "ResponseTime" (.vint 0)
      let raw := descendPath resp response_path
      if emptyBranch raw then
        ⟨[], [], 0, 1, 0, tok, .emptyItems⟩
      else
        let pr := processItems name response_time (asList raw) tok
        if pr.1 > 0 then
          let r := get_records_with_token name response_path rest pr.1
          ⟨pr.2 ++ r.emitted, pr.1 :: r.persisted, r.stateWrites + 1,
           r.fetches + 1, r.totalRecords + 1, r.finalCursor, r.exit⟩
        else
          ⟨pr.2, [], 0, 1, 0, tok, .noValidTokens⟩

/-- State bookmark entry for one stream: the persisted
`replication_key_value` (None when the key is absent). -/
structure BookmarkEntry : Type where
  replication_key_value : Option Int
  deriving DecidableEq, Repr

/-- The tap state: `state["bookmarks"]`, keyed by stream name. -/
structure TapState : Type where
  bookmarks : List (String × BookmarkEntry)
  deriving DecidableEq, Repr

/-- pagination.py lines 421-427,
`PaginatedStream.get_starting_replication_key_value`: read the bookmark
from state only (the function takes no configuration at all), defaulting
to "1" when the stream has no bookmark. -/
def get_starting_replication_key_value (state : TapState) (name : String) :
    Option Int :=
  match lookupStr state.bookmarks name with
  | some entry => entry.replication_key_value
  | none => some 1

/-- pagination.py lines 278-280: the loop's starting token, with the
`if last_token is None: last_token = 1` fallback. -/
def startingToken (state : TapState) (name : String) : Int :=
  (get_starting_replication_key_value state name).getD 1

end PaginatedStream

namespace TokenBasedStream

/-- Observable outcome of a run of `TokenBasedStream.get_records_with_token`
(streams.py).  Its state helpers come from the `SherpaStream` base class,
whose definition is not in the repository snapshot, so only the cursor
values passed to `_increment_stream_state` and the `_write_state_message`
call count are tracked, not a record counter. -/
structure RunResult : Type where
  emitted : List (List (String × Value))
  persisted : List Int
  stateWrites : Nat
  fetches : Nat
  finalCursor : Int
  exit : ExitReason

/-- streams.py lines 117-120: descend `response_items_path` with
`items = items.get(path_part, {})` (no isinstance guard; on a non-dict
Python would raise, a path no claim exercises — `pyGet` returns the
default there), then `items = items if isinstance(items, list) else []`. -/
def extractItems (resp : Value) (path : List String) : List Value :=
  PaginatedStream.asList (PaginatedStream.descendPath resp path)

/-- streams.py lines 130-145: map every item through the supplied
`record_mapper` (called with the item and the response time) and yield
the result unconditionally; track the highest token, seeded at the
request token.  `first_token` (lines 132, 137-139) is only logged. -/
def processItems (mapper : Value → Value → List (String × Value))
    (response_time : Value) :
    List Value → Int → Int × List (List (String × Value))
  | [], highest => (highest, [])
  | item :: rest, highest =>
      let rec0 := mapper item response_time
      let ct := itemToken item
      let h1 := if ct > highest then ct else highest
      let r := processItems mapper response_time rest h1
      (r.1, rec0 :: r.2)

/-- streams.py lines 72-162, `TokenBasedStream.get_records_with_token`:
the second token pagination loop.  On an empty page it re-persists the
unchanged token and writes a state message before stopping; on a page
that does not raise the token it stops without persisting. -/
def get_records_with_token (mapper : Value → Value → List (String × Value))
    (response_items_path : List String) :
    List Value → Int → RunResult
  | [], tok => ⟨[], [], 0, 0, tok, .outOfPages⟩
  | resp :: rest, tok =>
      let response_time := pyGet resp "ResponseTime" (.vint 0)
      let items := extractItems resp response_items_path
      if items.isEmpty then
        ⟨[], [tok], 1, 1, tok, .emptyItems⟩
      else
        let pr := processItems mapper response_time items tok
        if pr.1 ≠ tok then
          let r := get_records_with_token mapper response_items_path rest pr.1
          ⟨pr.2 ++ r.emitted, pr.1 :: r.persisted, r.stateWrites + 1,
           r.fetches + 1, r.finalCursor, r.exit⟩
        else
          ⟨pr.2, [], 0, 1, tok, .stagnantToken⟩

end TokenBasedStream

/-- tap.py lines 58-125: the tap's configuration keys used by the
pagination machinery, each `Option` standing for presence in the
`config` mapping (`config.get(key, default)` reads them). -/
structure TapConfig : Type where
  changed_items_token : Option Int
  chunk_size : Option Nat
  max_retries : Option Nat
  retry_wait_min : Option Nat
  retry_wait_max : Option Nat
  deriving DecidableEq, Repr

/-- pagination.py lines 13-18. -/
inductive PaginationMode : Type where
  | token : PaginationMode
  | cursor : PaginationMode
  | offset : PaginationMode
  deriving DecidableEq, Repr

/-- pagination.py lines 21-45. -/
structure PaginationConfig : Type where
  chunk_size : Nat
  max_retries : Nat
  retry_wait_min : Nat
  retry_wait_max : Nat
  mode : PaginationMode
  deriving DecidableEq, Repr

/-- pagination.py lines 60-66, `PaginatedStream.__init__`: the pagination
configuration built from the tap config with defaults 1000 / 3 / 4 / 10
and TOKEN mode. -/
def paginationConfigOfConfig (config : TapConfig) : PaginationConfig :=
  ⟨config.chunk_size.getD 1000, config.max_retries.getD 3,
   config.retry_wait_min.getD 4, config.retry_wait_max.getD 10,
   .token⟩

/-- Modelled from the spec (section 4.1), for comparison only: the number
of attempts the retry wrapper is claimed to use, namely the configured
maximum attempt count. -/
def specRetryAttempts (config : TapConfig) : Nat :=
  (paginationConfigOfConfig config).max_retries

/-- pagination.py line 199: the literal attempt bound in the decorator
`@retry(stop=stop_after_attempt(3), ...)` on `_make_request`. -/
def make_request_stop_attempts : Nat := 3

/-- pagination.py line 200: the literal backoff bounds in the decorator
`wait_exponential(multiplier=1, min=4, max=10)`. -/
def make_request_wait_min : Nat := 4

/-- pagination.py line 200: the literal upper backoff bound. -/
def make_request_wait_max : Nat := 10

/-- tenacity's retry driver specialised to `stop_after_attempt`: invoke
`op` (indexed by 1-based attempt number) and return the first success;
after the final budgeted attempt fails, the last error is surfaced
(tenacity wraps it in `RetryError`; the model returns it directly).
The second component counts invocations of `op`. -/
def retryExec {α : Type} (op : Nat → Except String α) :
    Nat → Nat → Except String α × Nat
  | 0, _ => (.error "", 0)
  | n + 1, attempt =>
      match op attempt with
      | .ok a => (.ok a, 1)
      | .error e =>
          if n = 0 then
            (.error e, 1)
          else
            let r := retryExec op n (attempt + 1)
            (r.1, r.2 + 1)

/-- pagination.py lines 198-220, `PaginatedStream._make_request`: the
remote call wrapped by the decorator's hardcoded `stop_after_attempt(3)`
(the body's try/except re-raises after logging, leaving the retry
behaviour to the decorator). -/
def make_request {α : Type} (op : Nat → Except String α) :
    Except String α × Nat :=
  retryExec op make_request_stop_attempts 1

namespace SherpaClient

/-- client.py lines 116-137, `SherpaClient.get_changed_items`: unwrap the
`ChangedItemsResult` / `ResponseValue` envelope (empty list on a falsy or
key-missing level) and normalize a non-list `ItemCodeToken` value into a
one-element list. -/
def get_changed_items (result : Value) : List Value :=
  if pyFalsy result || !(hasKey result "ChangedItemsResult") then []
  else
    let response := pyGet result "ChangedItemsResult" .vnull
    if pyFalsy response || !(hasKey response "ResponseValue") then []
    else
      let rv := pyGet response "ResponseValue" .vnull
      let items := pyGet rv "ItemCodeToken" (.vlist [])
      match items with
      | .vlist xs => xs
      | v => [v]

end SherpaClient

namespace TapPy

/-- A raw changed-items item as tap.py lines 217-221 read it, with direct
(`item["..."]`) field access. -/
structure RawItem : Type where
  itemCode : String
  token : Int
  itemStatus : String
  deriving DecidableEq, Repr

/-- A record built by tap.py's `ChangedItemsStream.get_records`. -/
structure Record : Type where
  item_code : String
  token : Int
  item_status : String
  response_time : Int
  deriving DecidableEq, Repr

/-- Observable outcome of a run of tap.py's
`ChangedItemsStream.get_records`. -/
structure RunResult : Type where
  emitted : List Record
  persisted : List Int
  stateWrites : Nat
  fetches : Nat
  finalToken : Int
  exit : ExitReason
  deriving DecidableEq, Repr

/-- tap.py line 204: the starting token is taken from the tap
configuration, `self.config.get("changed_items_token", 0)`. -/
def startToken (config : TapConfig) : Int :=
  config.changed_items_token.getD 0

/-- tap.py lines 216-230: one pass over a batch, seeding `highest_token`
at the page's `last_token`, and yielding a record only when its token
exceeds that `last_token` (constant across the page).  The record's
`response_time` comes from a wall-clock measurement, modelled as the
parameter `rt`. -/
def processPage (rt : Int) :
    List RawItem → Int → Int → Int × List Record
  | [], _, highest => (highest, [])
  | it :: rest, base, highest =>
      let record : Record := ⟨it.itemCode, it.token, it.itemStatus, rt⟩
      let h1 := if record.token > highest then record.token else highest
      let r := processPage rt rest base h1
      if record.token > base then (r.1, record :: r.2) else r

/-- tap.py lines 192-238, `ChangedItemsStream.get_records`: the loop over
`client.get_changed_items` batches.  The transport is the finite list of
batches successive calls return. -/
def get_records (rt : Int) : List (List RawItem) → Int → RunResult
  | [], tok => ⟨[], [], 0, 0, tok, .outOfPages⟩
  | items :: rest, tok =>
      if items.isEmpty then
        ⟨[], [], 0, 1, tok, .emptyItems⟩
      else
        let pr := processPage rt items tok tok
        if pr.1 > tok then
          let r := get_records rt rest pr.1
          ⟨pr.2 ++ r.emitted, pr.1 :: r.persisted, r.stateWrites + 1,
           r.fetches + 1, r.finalToken, r.exit⟩
        else
          ⟨pr.2, [], 0, 1, tok, .stagnantToken⟩

end TapPy

/-- The response path every PaginatedStream subclass uses for the
changed-items stream: `"ResponseValue.ItemCodeToken".split('.')`
(streams.py line 177). -/
def pathChangedItems : List String := ["ResponseValue", "ItemCodeToken"]

/-- A raw changed-items item as the SOAP layer delivers it. -/
def mkItem (code : String) (tok : Int) (status : String) : Value :=
  .vobj [("ItemCode", .vstr code), ("Token", .vint tok), ("ItemStatus", .vstr status)]

/-- A response whose item path holds the given list of items. -/
def mkItemsResp (items : List Value) : Value :=
  .vobj [("ResponseValue", .vobj [("ItemCodeToken", .vlist items)])]

/-- A response whose item path holds a single bare object, not a list. -/
def mkSingleObjectResp (item : Value) : Value :=
  .vobj [("ResponseValue", .vobj [("ItemCodeToken", item)])]

/-- The first fetch of the spec's example scenario: items with tokens
5, 7, 3 and an observed response time. -/
def examplePage1 : Value :=
  .vobj [("ResponseTime", .vint 12),
         ("ResponseValue", .vobj [("ItemCodeToken", .vlist
            [mkItem "A" 5 "Active", mkItem "B" 7 "Active", mkItem "C" 3 "Active"])])]

/-- The second fetch of the example scenario: zero items. -/
def examplePage2 : Value := mkItemsResp []

/-- The engine run of the example scenario: cursor starts at 1, transport
serves `examplePage1` then `examplePage2`. -/
def exampleRun : PaginatedStream.RunResult :=
  PaginatedStream.get_records_with_token "changed_items" pathChangedItems
    [examplePage1, examplePage2] 1

namespace PaginatedStream

theorem processItems_fst_cons (n : String) (rt it : Value) (rest : List Value) (h : Int) :
    (processItems n rt (it :: rest) h).1
      = (processItems n rt rest (if itemToken it > h then itemToken it else h)).1 := by
  simp only [processItems]
  cases hm : map_record n it <;> simp [hm]

/-- The page's highest token never drops below its seed, the request
cursor. -/
theorem le_processItems_fst (n : String) (rt : Value) :
    ∀ (items : List Value) (tok : Int), tok ≤ (processItems n rt items tok).1 := by
  intro items
  induction items with
  | nil => intro tok; simp [processItems]
  | cons it rest ih =>
    intro tok
    rw [processItems_fst_cons]
    refine le_trans ?_ (ih _)
    split <;> omega

/-- When no item token exceeds the cursor, the page's highest token is
exactly the cursor. -/
theorem processItems_fst_of_le (n : String) (rt : Value) :
    ∀ (items : List Value) (tok : Int), (∀ it ∈ items, itemToken it ≤ tok) →
      (processItems n rt items tok).1 = tok := by
  intro items
  induction items with
  | nil => intro tok _; simp [processItems]
  | cons it rest ih =>
    intro tok h
    rw [processItems_fst_cons]
    have h1 : (if itemToken it > tok then itemToken it else tok) = tok := by
      have := h it (List.mem_cons_self it rest)
      split <;> omega
    rw [h1]
    exact ih tok (fun x hx => h x (List.mem_cons_of_mem _ hx))

end PaginatedStream

namespace TokenBasedStream

theorem tb_processItems_fst_cons (mapper : Value → Value → List (String × Value))
    (rt it : Value) (rest : List Value) (h : Int) :
    (processItems mapper rt (it :: rest) h).1
      = (processItems mapper rt rest (if itemToken it > h then itemToken it else h)).1 := by
  simp [processItems]

theorem tb_le_processItems_fst (mapper : Value → Value → List (String × Value)) (rt : Value) :
    ∀ (items : List Value) (tok : Int), tok ≤ (processItems mapper rt items tok).1 := by
  intro items
  induction items with
  | nil => intro tok; simp [processItems]
  | cons it rest ih =>
    intro tok
    rw [tb_processItems_fst_cons]
    refine le_trans ?_ (ih _)
    split <;> omega

theorem tb_processItems_fst_of_le (mapper : Value → Value → List (String × Value)) (rt : Value) :
    ∀ (items : List Value) (tok : Int), (∀ it ∈ items, itemToken it ≤ tok) →
      (processItems mapper rt items tok).1 = tok := by
  intro items
  induction items with
  | nil => intro tok _; simp [processItems]
  | cons it rest ih =>
    intro tok h
    rw [tb_processItems_fst_cons]
    have h1 : (if itemToken it > tok then itemToken it else tok) = tok := by
      have := h it (List.mem_cons_self it rest)
      split <;> omega
    rw [h1]
    exact ih tok (fun x hx => h x (List.mem_cons_of_mem _ hx))

end TokenBasedStream

theorem retryExec_last {α : Type} (op : Nat → Except String α) (k : Nat) :
    retryExec op 1 k = (op k, 1) := by
  cases hc : op k <;> simp [retryExec, hc]

/-- Under the decorator's budget of 3, two leading failures leave the
third invocation's outcome as the final one, after exactly 3 calls. -/
theorem retryExec_three {α : Type} (op : Nat → Except String α) (e1 e2 : String)
    (hc1 : op 1 = .error e1) (hc2 : op 2 = .error e2) :
    retryExec op 3 1 = (op 3, 3) := by
  simp [retryExec, hc1, hc2]
  cases hc3 : op 3 <;> simp [hc3]

namespace TapPy

theorem processPage_fst_cons (rt : Int) (it : RawItem) (rest : List RawItem) (base h : Int) :
    (processPage rt (it :: rest) base h).1
      = (processPage rt rest base (if it.token > h then it.token else h)).1 := by
  simp only [processPage]
  split <;> rfl

/-- Every record tap.py's loop yields from one page has a token strictly
above the page's base token. -/
theorem mem_processPage_snd (rt : Int) :
    ∀ (items : List RawItem) (base h : Int) (r : Record),
      r ∈ (processPage rt items base h).2 → base < r.token := by
  intro items
  induction items with
  | nil => intro base h r hr; simp [processPage] at hr
  | cons it rest ih =>
    intro base h r hr
    simp only [processPage] at hr
    by_cases hb : it.token > base
    · rw [if_pos hb] at hr
      rcases List.mem_cons.mp hr with rfl | hr2
      · exact hb
      · exact ih _ _ _ hr2
    · rw [if_neg hb] at hr
      exact ih _ _ _ hr

end TapPy

/-- Claim C9: for every item in a fetched page, a mapper result of None
drops the item (nothing is emitted for it) while its token value still
participates in the page's highest token (the fold of max over all item
tokens, seeded at the cursor); items whose mapping yields a record are
emitted with the page's response_time attached, in response order. -/
theorem page_items_tokens_counted_and_mapped_emitted
    (name : String) (rt : Value) (items : List Value) (tok : Int) :
    (PaginatedStream.processItems name rt items tok).1
      = items.foldl (fun h it => max h (itemToken it)) tok ∧
    (PaginatedStream.processItems name rt items tok).2
      = items.filterMap (fun it =>
          (PaginatedStream.map_record name it).map
            (fun r => r ++ [("response_time", rt)])) := by
  induction items generalizing tok with
  | nil => simp [PaginatedStream.processItems]
  | cons it rest ih =>
    have hmax : (if itemToken it > tok then itemToken it else tok)
        = max tok (itemToken it) := by
      rcases le_total tok (itemToken it) with h | h
      · rw [max_eq_right h]; split <;> omega
      · rw [max_eq_left h]; split <;> omega
    constructor
    · rw [PaginatedStream.processItems_fst_cons, List.foldl_cons, hmax]
      exact (ih _).1
    · simp only [PaginatedStream.processItems, List.filterMap_cons]
      cases hm : PaginatedStream.map_record name it <;> simp [hm, (ih _).2]

/-- Claim C5: in both token pagination loops, the sequence of cursor
values persisted during a run, prefixed with the starting cursor, is
non-decreasing; in particular a page whose items all carry tokens below
the cursor never makes the persisted cursor regress. -/
theorem persisted_cursor_monotone :
    (∀ (name : String) (path : List String) (pages : List Value) (tok : Int),
      List.Chain' (· ≤ ·)
        (tok :: (PaginatedStream.get_records_with_token name path pages tok).persisted)) ∧
    (∀ (mapper : Value → Value → List (String × Value)) (path : List String)
        (pages : List Value) (tok : Int),
      List.Chain' (· ≤ ·)
        (tok :: (TokenBasedStream.get_records_with_token mapper path pages tok).persisted)) := by
  constructor
  · intro name path pages
    induction pages with
    | nil => intro tok; simp [PaginatedStream.get_records_with_token]
    | cons resp rest ih =>
      intro tok
      simp only [PaginatedStream.get_records_with_token]
      by_cases hE : PaginatedStream.emptyBranch (PaginatedStream.descendPath resp path) = true
      · simp [hE]
      · by_cases hp : (PaginatedStream.processItems name (pyGet resp "ResponseTime" (.vint 0))
            (PaginatedStream.asList (PaginatedStream.descendPath resp path)) tok).1 > 0
        · simp only [hE, if_false, Bool.false_eq_true, hp, if_true, if_pos]
          rw [List.chain'_cons]
          exact ⟨PaginatedStream.le_processItems_fst _ _ _ _, ih _⟩
        · simp [hE, hp]
  · intro mapper path pages
    induction pages with
    | nil => intro tok; simp [TokenBasedStream.get_records_with_token]
    | cons resp rest ih =>
      intro tok
      simp only [TokenBasedStream.get_records_with_token]
      by_cases hE : (TokenBasedStream.extractItems resp path).isEmpty = true
      · simp [hE]
      · by_cases hp : (TokenBasedStream.processItems mapper (pyGet resp "ResponseTime" (.vint 0))
            (TokenBasedStream.extractItems resp path) tok).1 ≠ tok
        · simp only [hE, Bool.false_eq_true, if_false]
          rw [if_pos hp]
          refine List.chain'_cons.mpr ⟨TokenBasedStream.tb_le_processItems_fst _ _ _ _, ih _⟩
        · simp [hE, hp]

/-- Claim C10: when the starting token is at least 1 (as the
starting-cursor lookup's default "1" yields), the guard
highest_token > 0 holds after every non-empty page, so the
"No valid tokens found in response" branch is unreachable: the loop only
stops via the empty-items branch (or by the modelled transport prefix
running out), and every cursor it persists stays at least 1. -/
theorem positive_start_never_no_valid_tokens (name : String) (path : List String)
    (pages : List Value) (tok : Int) (h : 1 ≤ tok) :
    ((PaginatedStream.get_records_with_token name path pages tok).exit = ExitReason.emptyItems ∨
     (PaginatedStream.get_records_with_token name path pages tok).exit = ExitReason.outOfPages) ∧
    (∀ c ∈ (PaginatedStream.get_records_with_token name path pages tok).persisted, 1 ≤ c) := by
  induction pages generalizing tok with
  | nil => simp [PaginatedStream.get_records_with_token]
  | cons resp rest ih =>
    simp only [PaginatedStream.get_records_with_token]
    by_cases hE : PaginatedStream.emptyBranch (PaginatedStream.descendPath resp path) = true
    · simp [hE]
    · have hge := PaginatedStream.le_processItems_fst name (pyGet resp "ResponseTime" (.vint 0))
        (PaginatedStream.asList (PaginatedStream.descendPath resp path)) tok
      have hp : (PaginatedStream.processItems name (pyGet resp "ResponseTime" (.vint 0))
          (PaginatedStream.asList (PaginatedStream.descendPath resp path)) tok).1 > 0 := by omega
      have h1 : 1 ≤ (PaginatedStream.processItems name (pyGet resp "ResponseTime" (.vint 0))
          (PaginatedStream.asList (PaginatedStream.descendPath resp path)) tok).1 := by omega
      simp only [hE, if_false, Bool.false_eq_true, hp, if_true, if_pos]
      refine ⟨(ih _ h1).1, ?_⟩
      intro c hc
      rcases List.mem_cons.mp hc with rfl | hc2
      · exact h1
      · exact (ih _ h1).2 c hc2

/-- Claim C10 witness: a concrete run from token 1 over one non-empty
page and one empty page ends in the empty-items exit with all persisted
cursors at least 1. -/
theorem positive_start_never_no_valid_tokens_witness :
    (1 : Int) ≤ 1 ∧
    ((PaginatedStream.get_records_with_token "changed_items" pathChangedItems
        [examplePage1, examplePage2] 1).exit = ExitReason.emptyItems ∨
     (PaginatedStream.get_records_with_token "changed_items" pathChangedItems
        [examplePage1, examplePage2] 1).exit = ExitReason.outOfPages) ∧
    (∀ c ∈ (PaginatedStream.get_records_with_token "changed_items" pathChangedItems
        [examplePage1, examplePage2] 1).persisted, 1 ≤ c) :=
  ⟨le_refl 1,
   (positive_start_never_no_valid_tokens "changed_items" pathChangedItems
      [examplePage1, examplePage2] 1 (le_refl 1)).1,
   (positive_start_never_no_valid_tokens "changed_items" pathChangedItems
      [examplePage1, examplePage2] 1 (le_refl 1)).2⟩

/-- Claim C1 counterexample: at cursor 1, a non-empty page whose only
item carries token 1 (so the page's maximum token equals the cursor)
does NOT stop the PaginatedStream engine: it persists the unchanged
cursor, writes a state message, and issues a second fetch. -/
theorem stagnant_page_persists_and_refetches :
    (PaginatedStream.get_records_with_token "changed_items" pathChangedItems
        [mkItemsResp [mkItem "A" 1 "Active"], mkItemsResp []] 1).fetches = 2 ∧
    (PaginatedStream.get_records_with_token "changed_items" pathChangedItems
        [mkItemsResp [mkItem "A" 1 "Active"], mkItemsResp []] 1).stateWrites = 1 ∧
    (PaginatedStream.get_records_with_token "changed_items" pathChangedItems
        [mkItemsResp [mkItem "A" 1 "Active"], mkItemsResp []] 1).persisted = [1] := by
  exact ⟨rfl, rfl, rfl⟩

/-- Claim C1 (amended): when a fetched page is non-empty and no item
token exceeds the positive request cursor, TokenBasedStream's loop
(streams.py) transitions to DONE after that page — one fetch, nothing
persisted, no state message; PaginatedStream's loop (pagination.py)
instead re-persists the unchanged cursor, writes a state message and
continues fetching. -/
theorem stagnant_page_tokenbased_stops_without_persist
    (mapper : Value → Value → List (String × Value)) (name : String)
    (path : List String) (resp : Value) (rest : List Value) (its : List Value) (tok : Int)
    (hP : PaginatedStream.descendPath resp path = .vlist its)
    (hne : its ≠ [])
    (hmax : ∀ it ∈ its, itemToken it ≤ tok)
    (hpos : 0 < tok) :
    (TokenBasedStream.get_records_with_token mapper path (resp :: rest) tok).fetches = 1 ∧
    (TokenBasedStream.get_records_with_token mapper path (resp :: rest) tok).persisted = [] ∧
    (TokenBasedStream.get_records_with_token mapper path (resp :: rest) tok).stateWrites = 0 ∧
    (TokenBasedStream.get_records_with_token mapper path (resp :: rest) tok).exit
      = ExitReason.stagnantToken ∧
    (PaginatedStream.get_records_with_token name path (resp :: rest) tok).persisted
      = tok :: (PaginatedStream.get_records_with_token name path rest tok).persisted ∧
    (PaginatedStream.get_records_with_token name path (resp :: rest) tok).fetches
      = (PaginatedStream.get_records_with_token name path rest tok).fetches + 1 ∧
    (PaginatedStream.get_records_with_token name path (resp :: rest) tok).stateWrites
      = (PaginatedStream.get_records_with_token name path rest tok).stateWrites + 1 := by
  have hItems : TokenBasedStream.extractItems resp path = its := by
    simp [TokenBasedStream.extractItems, hP, PaginatedStream.asList]
  have hfstT : (TokenBasedStream.processItems mapper (pyGet resp "ResponseTime" (.vint 0))
      its tok).1 = tok :=
    TokenBasedStream.tb_processItems_fst_of_le _ _ its tok hmax
  have hfstP : (PaginatedStream.processItems name (pyGet resp "ResponseTime" (.vint 0))
      its tok).1 = tok :=
    PaginatedStream.processItems_fst_of_le _ _ its tok hmax
  have hEB : PaginatedStream.emptyBranch (Value.vlist its) = false := by
    cases its with
    | nil => exact absurd rfl hne
    | cons a l => rfl
  have hNE : its.isEmpty = false := by
    cases its with
    | nil => exact absurd rfl hne
    | cons a l => rfl
  refine ⟨?_, ?_, ?_, ?_, ?_, ?_, ?_⟩ <;>
    simp [TokenBasedStream.get_records_with_token, PaginatedStream.get_records_with_token,
      hNE, hItems, hfstT, hfstP, hEB, hP, PaginatedStream.asList, hpos]

/-- Claim C1 witness: the amended behaviour at a concrete stagnant page
(cursor 1, single item with token 1). -/
theorem stagnant_page_tokenbased_stops_without_persist_witness :
    PaginatedStream.descendPath (mkItemsResp [mkItem "A" 1 "Active"]) pathChangedItems
      = Value.vlist [mkItem "A" 1 "Active"] ∧
    (0 : Int) < 1 ∧
    (TokenBasedStream.get_records_with_token (fun _ _ => []) pathChangedItems
        [mkItemsResp [mkItem "A" 1 "Active"]] 1).fetches = 1 ∧
    (TokenBasedStream.get_records_with_token (fun _ _ => []) pathChangedItems
        [mkItemsResp [mkItem "A" 1 "Active"]] 1).persisted = [] ∧
    (TokenBasedStream.get_records_with_token (fun _ _ => []) pathChangedItems
        [mkItemsResp [mkItem "A" 1 "Active"]] 1).exit = ExitReason.stagnantToken :=
  have h := stagnant_page_tokenbased_stops_without_persist
    (fun _ _ => []) "changed_items" pathChangedItems
    (mkItemsResp [mkItem "A" 1 "Active"]) [] [mkItem "A" 1 "Active"] 1
    rfl (by simp)
    (by intro it hit; rw [List.mem_singleton] at hit; subst hit; decide)
    (by norm_num)
  ⟨rfl, by norm_num, h.1, h.2.1, h.2.2.2.1⟩

/-- Claim C2 counterexample: a run of PaginatedStream's loop freshly
loaded at cursor 5, served a page whose single item carries token 3,
emits that record even though its token 3 is at most the cursor 5. -/
theorem record_below_cursor_emitted :
    (PaginatedStream.get_records_with_token "changed_items" pathChangedItems
        [mkItemsResp [mkItem "A" 3 "Active"], mkItemsResp []] 5).emitted
      = [[("item_code", Value.vstr "A"), ("token", Value.vint 3),
          ("item_status", Value.vstr "Active"), ("response_time", Value.vint 0)]] ∧
    (3 : Int) ≤ 5 := by
  exact ⟨rfl, by norm_num⟩

/-- Claim C2 (amended): PaginatedStream's loop emits every mapped record
of a page regardless of its token; the token-comparison filter exists
only in tap.py's ChangedItemsStream.get_records, which never yields a
record whose token is at most the starting token. -/
theorem tap_changed_items_filters_below_start (rt : Int)
    (pages : List (List TapPy.RawItem)) (tok : Int) (r : TapPy.Record)
    (hr : r ∈ (TapPy.get_records rt pages tok).emitted) :
    tok < r.token := by
  induction pages generalizing tok with
  | nil => simp [TapPy.get_records] at hr
  | cons items rest ih =>
    simp only [TapPy.get_records] at hr
    by_cases he : items.isEmpty = true
    · simp [he] at hr
    · simp only [he, Bool.false_eq_true, if_false] at hr
      by_cases hp : (TapPy.processPage rt items tok tok).1 > tok
      · rw [if_pos hp] at hr
        rcases List.mem_append.mp hr with hL | hR
        · exact TapPy.mem_processPage_snd rt items tok tok r hL
        · exact lt_trans hp (ih _ hR)
      · rw [if_neg hp] at hr
        exact TapPy.mem_processPage_snd rt items tok tok r hr

/-- Claim C2 witness: tap.py's loop at start token 5 over a page with
tokens 3 and 7 emits only the token-7 record, whose token exceeds 5. -/
theorem tap_changed_items_filters_below_start_witness :
    (⟨"B", 7, "S", 0⟩ : TapPy.Record)
      ∈ (TapPy.get_records 0 [[⟨"A", 3, "S"⟩, ⟨"B", 7, "S"⟩]] 5).emitted ∧
    (5 : Int) < (⟨"B", 7, "S", 0⟩ : TapPy.Record).token :=
  ⟨by decide,
   tap_changed_items_filters_below_start 0 [[⟨"A", 3, "S"⟩, ⟨"B", 7, "S"⟩]] 5
     ⟨"B", 7, "S", 0⟩ (by decide)⟩

/-- Claim C3 counterexample: the retry wrapper's attempt bound and
backoff bounds are the decorator's literals 3 / 4 / 10, not the
configured values: with max_retries = 5 (and retry_wait_min = 7,
retry_wait_max = 9) in the configuration, an always-failing operation is
still invoked exactly 3 times, and the literal bounds differ from the
configured ones. -/
theorem retry_count_ignores_config :
    specRetryAttempts ⟨none, none, some 5, some 7, some 9⟩ = 5 ∧
    make_request_stop_attempts = 3 ∧
    (make_request (fun _ => (Except.error "boom" : Except String Unit))).2 = 3 ∧
    make_request_stop_attempts ≠ specRetryAttempts ⟨none, none, some 5, some 7, some 9⟩ ∧
    make_request_wait_min ≠ (paginationConfigOfConfig ⟨none, none, some 5, some 7, some 9⟩).retry_wait_min ∧
    make_request_wait_max ≠ (paginationConfigOfConfig ⟨none, none, some 5, some 7, some 9⟩).retry_wait_max := by
  refine ⟨rfl, rfl, rfl, ?_, ?_, ?_⟩ <;> decide

/-- Claim C3 (amended): the retry wrapper retries with a fixed attempt
budget of 3 (the decorator literal, matching the configuration default):
an operation that fails on attempts 1, 2 and 3 is invoked exactly 3
times and the final error propagates; an operation that fails twice and
succeeds on attempt 3 completes successfully after exactly 3
invocations. -/
theorem retry_three_attempts_fixed {α β : Type}
    (op : Nat → Except String α) (op2 : Nat → Except String β) (b : β)
    (h1 : ∃ e, op 1 = .error e) (h2 : ∃ e, op 2 = .error e)
    (h3 : ∃ e, op 3 = .error e)
    (g1 : ∃ e, op2 1 = .error e) (g2 : ∃ e, op2 2 = .error e)
    (g3 : op2 3 = .ok b) :
    (make_request op).2 = 3 ∧ (∃ e, (make_request op).1 = .error e) ∧
    make_request op2 = (.ok b, 3) := by
  obtain ⟨e1, hc1⟩ := h1
  obtain ⟨e2, hc2⟩ := h2
  obtain ⟨e3, hc3⟩ := h3
  obtain ⟨f1, gc1⟩ := g1
  obtain ⟨f2, gc2⟩ := g2
  have hop : make_request op = (op 3, 3) := retryExec_three op e1 e2 hc1 hc2
  have hop2 : make_request op2 = (op2 3, 3) := retryExec_three op2 f1 f2 gc1 gc2
  refine ⟨by rw [hop], ⟨e3, by rw [hop, hc3]⟩, by rw [hop2, g3]⟩

/-- Claim C3 witness: the amended retry behaviour at concrete operations
(one that always fails, one that fails twice then returns 99). -/
theorem retry_three_attempts_fixed_witness :
    (make_request (fun _ => (Except.error "boom" : Except String Unit))).2 = 3 ∧
    (∃ e, (make_request (fun _ => (Except.error "boom" : Except String Unit))).1
        = Except.error e) ∧
    make_request (fun i => if i ≤ 2 then (Except.error "boom" : Except String Nat)
        else .ok 99) = (.ok 99, 3) :=
  retry_three_attempts_fixed
    (fun _ => (Except.error "boom" : Except String Unit))
    (fun i => if i ≤ 2 then (Except.error "boom" : Except String Nat) else .ok 99) 99
    ⟨"boom", rfl⟩ ⟨"boom", rfl⟩ ⟨"boom", rfl⟩ ⟨"boom", rfl⟩ ⟨"boom", rfl⟩ rfl

/-- Claim C4 counterexample: on an empty first page at cursor 5,
TokenBasedStream's loop (streams.py lines 122-128) does write state: it
re-persists the cursor and emits one state message before stopping. -/
theorem empty_page_tokenbased_persists :
    (TokenBasedStream.get_records_with_token (fun _ _ => []) pathChangedItems
        [Value.vobj []] 5).fetches = 1 ∧
    (TokenBasedStream.get_records_with_token (fun _ _ => []) pathChangedItems
        [Value.vobj []] 5).stateWrites = 1 ∧
    (TokenBasedStream.get_records_with_token (fun _ _ => []) pathChangedItems
        [Value.vobj []] 5).persisted = [5] := by
  exact ⟨rfl, rfl, rfl⟩

/-- Claim C4 (amended): when the first fetch yields zero items, both
loops reach DONE after exactly one fetch with the cursor unchanged;
PaginatedStream leaves persisted state completely untouched (no state
increment, no state message), while TokenBasedStream re-persists the
unchanged cursor and writes one state message before stopping. -/
theorem empty_first_page_behavior
    (mapper : Value → Value → List (String × Value)) (name : String)
    (path : List String) (resp : Value) (rest : List Value) (tok : Int)
    (hP : PaginatedStream.emptyBranch (PaginatedStream.descendPath resp path) = true)
    (hT : TokenBasedStream.extractItems resp path = []) :
    PaginatedStream.get_records_with_token name path (resp :: rest) tok
      = ⟨[], [], 0, 1, 0, tok, ExitReason.emptyItems⟩ ∧
    TokenBasedStream.get_records_with_token mapper path (resp :: rest) tok
      = ⟨[], [tok], 1, 1, tok, ExitReason.emptyItems⟩ := by
  constructor
  · simp [PaginatedStream.get_records_with_token, hP]
  · simp [TokenBasedStream.get_records_with_token, hT]

/-- Claim C4 witness: the amended behaviour at a concrete empty response,
cursor 5. -/
theorem empty_first_page_behavior_witness :
    PaginatedStream.emptyBranch
        (PaginatedStream.descendPath (Value.vobj []) pathChangedItems) = true ∧
    TokenBasedStream.extractItems (Value.vobj []) pathChangedItems = [] ∧
    PaginatedStream.get_records_with_token "changed_items" pathChangedItems
        [Value.vobj []] 5
      = ⟨[], [], 0, 1, 0, 5, ExitReason.emptyItems⟩ ∧
    TokenBasedStream.get_records_with_token (fun _ _ => []) pathChangedItems
        [Value.vobj []] 5
      = ⟨[], [5], 1, 1, 5, ExitReason.emptyItems⟩ :=
  have h := empty_first_page_behavior (fun _ _ => []) "changed_items" pathChangedItems
    (Value.vobj []) [] 5 rfl rfl
  ⟨rfl, rfl, h.1, h.2⟩

/-- Claim C6 counterexample: in the example scenario (cursor 1, first
page tokens [5, 7, 3], second page empty) the persisted
total_records_processed counter ends at 1 — the source increments
self._total_records once per persisted page, not once per record — and
not at 3 as claimed. -/
theorem example_scenario_total_records_is_one :
    exampleRun.totalRecords = 1 ∧ (1 : Nat) ≠ 3 := by
  exact ⟨rfl, by decide⟩

/-- Claim C6 (amended): in the example scenario the engine emits exactly
3 records, ends via the empty-items branch after 2 fetches with final
persisted cursor 7, and the persisted total_records_processed counter
equals 1 (one increment per persisted page). -/
theorem example_scenario_outcome :
    exampleRun.emitted.length = 3 ∧
    exampleRun.finalCursor = 7 ∧
    exampleRun.persisted = [7] ∧
    exampleRun.exit = ExitReason.emptyItems ∧
    exampleRun.fetches = 2 ∧
    exampleRun.totalRecords = 1 := by
  exact ⟨rfl, rfl, rfl, rfl, rfl, rfl⟩

/-- Claim C7 counterexample: a response whose item path resolves to a
single object (token 5) is NOT treated as a one-element list by
PaginatedStream's extraction: the run emits nothing and re-persists the
unchanged cursor 1, while the same item wrapped in a singleton list is
emitted and advances the cursor to 5. -/
theorem single_object_dropped_not_singleton :
    (PaginatedStream.get_records_with_token "changed_items" pathChangedItems
        [mkSingleObjectResp (mkItem "A" 5 "S"), mkItemsResp []] 1).emitted = [] ∧
    (PaginatedStream.get_records_with_token "changed_items" pathChangedItems
        [mkItemsResp [mkItem "A" 5 "S"], mkItemsResp []] 1).emitted
      = [[("item_code", Value.vstr "A"), ("token", Value.vint 5),
          ("item_status", Value.vstr "S"), ("response_time", Value.vint 0)]] ∧
    (PaginatedStream.get_records_with_token "changed_items" pathChangedItems
        [mkSingleObjectResp (mkItem "A" 5 "S"), mkItemsResp []] 1).persisted = [1] ∧
    (PaginatedStream.get_records_with_token "changed_items" pathChangedItems
        [mkItemsResp [mkItem "A" 5 "S"], mkItemsResp []] 1).persisted = [5] := by
  exact ⟨rfl, rfl, rfl, rfl⟩

/-- Claim C7 (amended): when the item path resolves to a non-empty single
object, PaginatedStream's loop replaces it by the empty list — the item
is dropped entirely (no record, no token tracked) and the unchanged
cursor is re-persisted before the next fetch; only
SherpaClient.get_changed_items (client.py) normalizes a single object
into a one-element list. -/
theorem single_object_page_dropped (name : String) (path : List String)
    (resp : Value) (rest : List Value) (tok : Int) (fs : List (String × Value))
    (hobj : PaginatedStream.descendPath resp path = .vobj fs)
    (hne : fs ≠ [])
    (hpos : 0 < tok) :
    (PaginatedStream.get_records_with_token name path (resp :: rest) tok).emitted
      = (PaginatedStream.get_records_with_token name path rest tok).emitted ∧
    (PaginatedStream.get_records_with_token name path (resp :: rest) tok).persisted
      = tok :: (PaginatedStream.get_records_with_token name path rest tok).persisted ∧
    (PaginatedStream.get_records_with_token name path (resp :: rest) tok).fetches
      = (PaginatedStream.get_records_with_token name path rest tok).fetches + 1 ∧
    (∀ fs2 : List (String × Value),
      SherpaClient.get_changed_items
        (.vobj [("ChangedItemsResult", .vobj [("ResponseValue",
           .vobj [("ItemCodeToken", .vobj fs2)])])]) = [.vobj fs2]) := by
  have hEB : PaginatedStream.emptyBranch (Value.vobj fs) = false := by
    cases fs with
    | nil => exact absurd rfl hne
    | cons a l => rfl
  refine ⟨?_, ?_, ?_, fun fs2 => rfl⟩ <;>
    simp [PaginatedStream.get_records_with_token, hobj, hEB,
      PaginatedStream.asList, PaginatedStream.processItems, hpos]

/-- Claim C7 witness: the amended behaviour at a concrete single-object
response (token 5) and at a concrete client envelope. -/
theorem single_object_page_dropped_witness :
    PaginatedStream.descendPath (mkSingleObjectResp (mkItem "A" 5 "S")) pathChangedItems
      = Value.vobj [("ItemCode", Value.vstr "A"), ("Token", Value.vint 5),
                    ("ItemStatus", Value.vstr "S")] ∧
    (0 : Int) < 1 ∧
    (PaginatedStream.get_records_with_token "changed_items" pathChangedItems
        [mkSingleObjectResp (mkItem "A" 5 "S"), mkItemsResp []] 1).emitted
      = (PaginatedStream.get_records_with_token "changed_items" pathChangedItems
          [mkItemsResp []] 1).emitted ∧
    SherpaClient.get_changed_items
        (.vobj [("ChangedItemsResult", .vobj [("ResponseValue",
           .vobj [("ItemCodeToken", .vobj [("Token", Value.vint 5)])])])])
      = [Value.vobj [("Token", Value.vint 5)]] :=
  have h := single_object_page_dropped "changed_items" pathChangedItems
    (mkSingleObjectResp (mkItem "A" 5 "S")) [mkItemsResp []] 1
    [("ItemCode", Value.vstr "A"), ("Token", Value.vint 5), ("ItemStatus", Value.vstr "S")]
    rfl (by simp) (by norm_num)
  ⟨rfl, by norm_num, h.1, h.2.2.2 [("Token", Value.vint 5)]⟩

/-- Claim C8 counterexample: tap.py's ChangedItemsStream.get_records
takes its starting token from the stream configuration
(changed_items_token, default 0): with no configured value the start is
0, not the defined default 1, and a configured 42 is used directly. -/
theorem tap_start_token_from_config :
    TapPy.startToken ⟨none, none, none, none, none⟩ = 0 ∧
    (0 : Int) ≠ 1 ∧
    TapPy.startToken ⟨some 42, none, none, none, none⟩ = 42 := by
  refine ⟨rfl, by norm_num, rfl⟩

/-- Claim C8 (amended): PaginatedStream's starting-cursor lookup reads
persisted state only — the stream's bookmark value when one exists, else
the defined default "1" (the function takes no configuration input at
all) — whereas tap.py's ChangedItemsStream.get_records takes its start
token from the configuration key changed_items_token with default 0. -/
theorem starting_cursor_from_state_only :
    (∀ (st : PaginatedStream.TapState) (name : String)
        (e : PaginatedStream.BookmarkEntry),
        lookupStr st.bookmarks name = some e →
        PaginatedStream.get_starting_replication_key_value st name
          = e.replication_key_value) ∧
    (∀ (st : PaginatedStream.TapState) (name : String),
        lookupStr st.bookmarks name = none →
        PaginatedStream.get_starting_replication_key_value st name = some 1) ∧
    (∀ config : TapConfig,
        TapPy.startToken config = config.changed_items_token.getD 0) := by
  refine ⟨?_, ?_, fun config => rfl⟩
  · intro st name e h
    simp [PaginatedStream.get_starting_replication_key_value, h]
  · intro st name h
    simp [PaginatedStream.get_starting_replication_key_value, h]

/-- Claim C8 witness: the lookup at a concrete state with a bookmark of
42, at a concrete empty state, and the tap.py start at a concrete
configuration. -/
theorem starting_cursor_from_state_only_witness :
    lookupStr (PaginatedStream.TapState.mk
        [("changed_items", ⟨some 42⟩)]).bookmarks "changed_items"
      = some ⟨some 42⟩ ∧
    PaginatedStream.get_starting_replication_key_value
        ⟨[("changed_items", ⟨some 42⟩)]⟩ "changed_items"
      = (⟨some 42⟩ : PaginatedStream.BookmarkEntry).replication_key_value ∧
    PaginatedStream.get_starting_replication_key_value ⟨[]⟩ "changed_items"
      = some 1 ∧
    TapPy.startToken ⟨some 42, none, none, none, none⟩
      = (⟨some 42, none, none, none, none⟩ : TapConfig).changed_items_token.getD 0 :=
  ⟨rfl,
   starting_cursor_from_state_only.1 ⟨[("changed_items", ⟨some 42⟩)]⟩ "changed_items"
     ⟨some 42⟩ rfl,
   starting_cursor_from_state_only.2.1 ⟨[]⟩ "changed_items" rfl,
   starting_cursor_from_state_only.2.2 ⟨some 42, none, none, none, none⟩⟩

end TapSherpa
